import Mathlib

/-!
Verification development for the Agentic-AI-Flight-scanner repository.

Shallow embedding of the aggregation / normalization core:
  * `BaseFlightScraper._parse_price`, `BaseFlightScraper._parse_duration`
    (src/Agent/flight_scrapers.py)
  * `FlightScannerAgent.search_flights` aggregation loop, sorting and
    truncation (src/Agent/flight_scanner_agent.py)
  * `validate_config` (src/Agent/utils.py) and agent construction
  * `DemoFlightScraper.search_flights` / `_generate_flight`
    (src/Agent/demo_scraper.py)

Machine reals that only ever hold integers or the `float('inf')` sentinel
are modelled as `WithTop ℤ` (`⊤` = the sentinel).  Python dicts with
possibly-missing keys are modelled as structures with `Option` fields.
-/

/-- Numeric value of a list of ASCII digit characters, most significant
first (the value `float`/`int` gives a digit run). -/
def digitsVal (l : List Char) : Nat :=
  l.foldl (fun n c => 10 * n + (c.toNat - 48)) 0

/-- First maximal run of digits in a character list, as a number.
Models `re.findall(r'[\d,]+', text)[0]` on comma-free text: the regex
scans left to right and the first match is the leftmost maximal digit
run. -/
def firstDigitRun : List Char → Option Nat
  | [] => none
  | c :: cs =>
    if c.isDigit then some (digitsVal (c :: cs.takeWhile Char.isDigit))
    else firstDigitRun cs

/-- First number captured by the regex `(\d+)x` for a literal character
`x`: the leftmost maximal digit run that is immediately followed by `x`.
At each position the regex tries the maximal run starting there; greedy
backtracking cannot succeed by shortening the run (the next char would
then be a digit, not `x`), so advancing one character at a time is the
exact leftmost-match semantics. -/
def firstNumBefore (x : Char) : List Char → Option Nat
  | [] => none
  | d :: ds =>
    if d.isDigit then
      match ds.dropWhile Char.isDigit with
      | e :: _ =>
        if e = x then some (digitsVal (d :: ds.takeWhile Char.isDigit))
        else firstNumBefore x ds
      | [] => firstNumBefore x ds
    else firstNumBefore x ds

/-- Python `text.replace(',', '')`: drop every comma. -/
def removeCommas (l : List Char) : List Char := l.filter (fun c => c ≠ ',')

/-- Python `str.strip()`: remove leading and trailing whitespace. -/
def stripChars (l : List Char) : List Char :=
  ((l.dropWhile Char.isWhitespace).reverse.dropWhile Char.isWhitespace).reverse

/-- Python `str.strip()` at the `String` level. -/
def pyStrip (s : String) : String := ⟨stripChars s.data⟩

namespace BaseFlightScraper

/-- `BaseFlightScraper._parse_price` (flight_scrapers.py lines 71-84).
`if not price_text: return "N/A", float('inf')`; then commas are removed
by `price_text.replace(',', '')`, `re.findall(r'[\d,]+', ...)` yields the
maximal digit runs of the comma-free text, and the first run is parsed
(`float` on a pure digit run never fails, so the `except` is dead);
otherwise the sentinel is returned with the stripped text. -/
def parse_price (price_text : String) : String × WithTop ℤ :=
  if price_text.data.isEmpty then ("N/A", ⊤)
  else
    match firstDigitRun (removeCommas price_text.data) with
    | some n => (pyStrip price_text, ((n : ℤ) : WithTop ℤ))
    | none => (pyStrip price_text, ⊤)

/-- `BaseFlightScraper._parse_duration` (flight_scrapers.py lines 86-101).
`re.findall(r'(\d+)h', ...)` / `re.findall(r'(\d+)m', ...)` give the hour
and minute components independently; the total is
`hours[0]*60 + minutes[0]` with an absent component contributing `0`, and
a non-positive total degrades to `float('inf')`. -/
def parse_duration (duration_text : String) : String × WithTop ℤ :=
  if duration_text.data.isEmpty then ("N/A", ⊤)
  else
    let hours := firstNumBefore 'h' duration_text.data
    let minutes := firstNumBefore 'm' duration_text.data
    let total_minutes := 60 * hours.getD 0 + minutes.getD 0
    (pyStrip duration_text,
      if 0 < total_minutes then ((total_minutes : ℤ) : WithTop ℤ) else ⊤)

end BaseFlightScraper

/-- The flight-record dictionary shape every adapter produces.  A key that
may be absent from the Python dict is an `Option` field (`none` = key
missing). -/
structure FlightRecord where
  airline : Option String := none
  departure_time : Option String := none
  arrival_time : Option String := none
  duration : Option String := none
  duration_minutes : Option (WithTop ℤ) := none
  price : Option String := none
  price_numeric : Option (WithTop ℤ) := none
  stops : Option String := none
  departure_airport : Option String := none
  arrival_airport : Option String := none
  website : Option String := none
deriving DecidableEq, Inhabited

/-- `x.get('price_numeric', float('inf'))` — the sort key used for
`sort_by == 'price'`. -/
def priceKey (r : FlightRecord) : WithTop ℤ := r.price_numeric.getD ⊤

/-- `x.get('duration_minutes', float('inf'))` — the sort key used for
`sort_by == 'duration'`. -/
def durKey (r : FlightRecord) : WithTop ℤ := r.duration_minutes.getD ⊤

/-- `x.get('departure_time', '')` — the sort key used for
`sort_by == 'departure_time'`. -/
def depKey (r : FlightRecord) : String := r.departure_time.getD ""

/-- Python's `list.sort(key=...)` is a stable sort by the key; insertion
sort that inserts a new element in front of the first element whose key
is ≥ its own is such a stable sort. -/
def sortByKey {β : Type} [LinearOrder β] (key : FlightRecord → β)
    (l : List FlightRecord) : List FlightRecord :=
  List.insertionSort (fun a b => key a ≤ key b) l

namespace FlightScannerAgent

/-- The aggregation loop of `FlightScannerAgent.search_flights`
(flight_scanner_agent.py lines 50-78).  One entry of `outcomes` per
website in `[primary] + fallback`, in order: `none` models the adapter
call raising an exception (caught by `except Exception: continue`),
`some fl` models the adapter returning the list `fl`.  `all_flights`
starts empty and the loop `break`s at the first truthy result, so the
accumulated list is the first non-empty outcome, or `[]`. -/
def firstSuccess : List (Option (List FlightRecord)) → List FlightRecord
  | [] => []
  | o :: rest =>
    match o with
    | none => firstSuccess rest
    | some fl => if fl = [] then firstSuccess rest else fl

/-- The sort step of `FlightScannerAgent.search_flights`
(flight_scanner_agent.py lines 80-87): an `if/elif` chain on
`sort_key`; any other key sorts nothing. -/
def sortRecords (sort_key : String) (l : List FlightRecord) :
    List FlightRecord :=
  if sort_key = "price" then sortByKey priceKey l
  else if sort_key = "duration" then sortByKey durKey l
  else if sort_key = "departure_time" then sortByKey depKey l
  else l

/-- `FlightScannerAgent.search_flights` (flight_scanner_agent.py lines
38-91) with the per-website adapter calls abstracted into `outcomes`:
accumulate the first non-empty source result, return `[]` if every
source came back empty, otherwise sort by
`search_settings.get('sort_by', 'price')` and truncate to
`search_settings.get('max_results', 10)`. -/
def search_flights (sort_by : Option String) (max_results : Option Nat)
    (outcomes : List (Option (List FlightRecord))) : List FlightRecord :=
  let all_flights := firstSuccess outcomes
  if all_flights = [] then []
  else (sortRecords (sort_by.getD "price") all_flights).take
    (max_results.getD 10)

end FlightScannerAgent

/-- The `flight_search` section of the configuration dict.  Each key the
code may look up is an `Option` field; `none` covers both an absent key
and a JSON `null` (both falsy / KeyError-prone in the source). -/
structure FlightSearch where
  source : Option String := none
  destination : Option String := none
  travel_date : Option String := none
  return_date : Option String := none
  passengers : Option Nat := none
  flight_class : Option String := none
deriving DecidableEq, Inhabited

/-- The `websites` section of the configuration dict. -/
structure Websites where
  primary : Option String := none
  fallback : List String := []
deriving DecidableEq, Inhabited

/-- The `search_settings` section of the configuration dict (only the
fields the aggregation core reads). -/
structure SearchSettings where
  max_results : Option Nat := none
  sort_by : Option String := none
deriving DecidableEq, Inhabited

/-- The top-level configuration dict. `browser_settings` is only tested
for presence by the validator, so it is modelled as `Option Unit`. -/
structure Config where
  flight_search : Option FlightSearch := none
  websites : Option Websites := none
  search_settings : Option SearchSettings := none
  browser_settings : Option Unit := none
deriving DecidableEq, Inhabited

/-- Number of days in a month, as `datetime.date` enforces it (with the
Gregorian leap rule). -/
def daysInMonth (y m : Nat) : Nat :=
  if m = 2 then
    (if y % 4 = 0 ∧ (y % 100 ≠ 0 ∨ y % 400 = 0) then 29 else 28)
  else if m = 4 ∨ m = 6 ∨ m = 9 ∨ m = 11 then 30 else 31

/-- A token CPython's `_strptime` accepts for `%m` or `%d`: one or two
ASCII digits, value within `[1, hi]` (the compiled patterns
`1[0-2]|0[1-9]|[1-9]` and `3[01]|[12]\d|0[1-9]|[1-9]` accept exactly the
1-2 digit strings with value 1..12 resp. 1..31). -/
def validTok (s : String) (hi : Nat) : Bool :=
  s.data.all Char.isDigit && decide (1 ≤ s.data.length)
    && decide (s.data.length ≤ 2) && decide (1 ≤ digitsVal s.data)
    && decide (digitsVal s.data ≤ hi)

/-- `datetime.strptime(s, '%Y-%m-%d')` succeeds: CPython compiles the
format to `\d\d\d\d` `-` month-token `-` day-token matching the whole
string, then builds a `datetime.date`, which requires year ≥ 1 and the
day to exist in that month. -/
def validDate (s : String) : Bool :=
  match s.splitOn "-" with
  | [y, m, d] =>
    decide (y.data.length = 4) && y.data.all Char.isDigit
      && validTok m 12 && validTok d 31 && decide (1 ≤ digitsVal y.data)
      && decide (digitsVal d.data ≤ daysInMonth (digitsVal y.data) (digitsVal m.data))
  | _ => false

/-- Python truthiness test `not flight_search[key]` together with
`key not in flight_search`: the field is absent, null, or the empty
string. -/
def blankStr (o : Option String) : Prop := o = none ∨ o = some ""

instance (o : Option String) : Decidable (blankStr o) := by
  unfold blankStr; infer_instance

/-- The supported primary websites (utils.py line 65). -/
def supported_websites : List String := ["kayak", "expedia", "booking"]

/-- `validate_config` (utils.py lines 27-67), translated check by check in
source order; every `raise ValueError` becomes `Except.error` with the
source's message. -/
def validate_config (c : Config) : Except String Unit :=
  if c.flight_search = none then
    .error "Missing required configuration key: flight_search"
  else if c.websites = none then
    .error "Missing required configuration key: websites"
  else if c.search_settings = none then
    .error "Missing required configuration key: search_settings"
  else if c.browser_settings = none then
    .error "Missing required configuration key: browser_settings"
  else if blankStr (c.flight_search.getD default).source then
    .error "Missing required flight search parameter: source"
  else if blankStr (c.flight_search.getD default).destination then
    .error "Missing required flight search parameter: destination"
  else if blankStr (c.flight_search.getD default).travel_date then
    .error "Missing required flight search parameter: travel_date"
  else if validDate ((c.flight_search.getD default).travel_date.getD "")
      = false then
    .error "Invalid travel_date format. Use YYYY-MM-DD"
  else if (c.flight_search.getD default).return_date.getD "" ≠ ""
      ∧ validDate ((c.flight_search.getD default).return_date.getD "")
        = false then
    .error "Invalid return_date format. Use YYYY-MM-DD"
  else if (c.websites.getD default).primary = none then
    .error "Missing primary website in configuration"
  else if ((c.websites.getD default).primary.getD "") ∉ supported_websites then
    .error "Unsupported primary website."
  else .ok ()

/-- A constructed `FlightScannerAgent`: construction runs
`validate_config` (flight_scanner_agent.py line 26) after the config is
loaded, so an agent value only exists for a validated config. -/
structure Agent where
  config : Config
deriving DecidableEq

/-- `FlightScannerAgent.__init__` on an already-parsed config dict:
validation errors propagate out of the constructor. -/
def mkAgent (c : Config) : Except String Agent :=
  match validate_config c with
  | .error e => .error e
  | .ok _ => .ok ⟨c⟩

/-- The `main` pipeline up to the search result: construct the agent
(which validates), then run `search_flights`.  The adapter outcomes are
only consulted after construction succeeds.  After validation
`search_settings` is present; the default is never read. -/
def runPipeline (c : Config) (outcomes : List (Option (List FlightRecord))) :
    Except String (List FlightRecord) :=
  match mkAgent c with
  | .error e => .error e
  | .ok a =>
    let ss := a.config.search_settings.getD default
    .ok (FlightScannerAgent.search_flights ss.sort_by ss.max_results outcomes)

/-- A configuration that lacks a field `validate_config` requires: a
missing top-level section, a missing / null / empty `source`,
`destination` or `travel_date`, or a missing primary website. -/
def missingRequiredField (c : Config) : Prop :=
  c.flight_search = none ∨ c.websites = none ∨ c.search_settings = none
  ∨ c.browser_settings = none
  ∨ (∃ fs, c.flight_search = some fs
      ∧ (blankStr fs.source ∨ blankStr fs.destination
          ∨ blankStr fs.travel_date))
  ∨ (∃ w, c.websites = some w ∧ w.primary = none)

/-- A configuration carrying a travel or return date that
`datetime.strptime(..., '%Y-%m-%d')` rejects. -/
def malformedDate (c : Config) : Prop :=
  ∃ fs, c.flight_search = some fs
    ∧ ((∃ t, fs.travel_date = some t ∧ validDate t = false)
      ∨ (∃ r, fs.return_date = some r ∧ r ≠ "" ∧ validDate r = false))

/-- A configuration whose primary website is present but not one of the
supported sites. -/
def unsupportedPrimary (c : Config) : Prop :=
  ∃ w, c.websites = some w
    ∧ ∃ p, w.primary = some p ∧ p ∉ supported_websites

/-- The pseudo-random source: an infinite stream of naturals.  Each
primitive of Python's `random` module consumes one draw and leaves the
rest of the stream; a draw is reduced into the requested range by
`%`, which models the module's contract (`randint(a, b)` returns a value
in `[a, b]`, `choice` returns an element of the sequence) without
committing to the Mersenne-Twister distribution. -/
def RandGen : Type := Nat → Nat

/-- The stream after one draw has been consumed. -/
def RandGen.next (g : RandGen) : RandGen := fun n => g (n + 1)

/-- The current draw. -/
def RandGen.head (g : RandGen) : Nat := g 0

/-- `random.randint(lo, hi)`: an integer in `[lo, hi]` (both ends
included; the source only calls it with `lo ≤ hi`). -/
def randint (lo hi : ℤ) (g : RandGen) : ℤ × RandGen :=
  (lo + (g.head : ℤ) % (hi - lo + 1), g.next)

namespace DemoFlightScraper

/-- `self.airlines` (demo_scraper.py lines 20-29): airline name with its
price range, in dict insertion order (`random.choice(list(keys))`
chooses among these). -/
def airlines : List (String × ℤ × ℤ) :=
  [("American Airlines", 200, 800), ("Delta Air Lines", 220, 850),
   ("United Airlines", 210, 820), ("Southwest Airlines", 150, 600),
   ("JetBlue Airways", 180, 700), ("Alaska Airlines", 190, 750),
   ("Spirit Airlines", 100, 400), ("Frontier Airlines", 120, 450)]

/-- `self.flight_durations` (demo_scraper.py lines 32-38): route pair to
duration range in minutes. -/
def flight_durations : List ((String × String) × (ℤ × ℤ)) :=
  [(("NYC", "LAX"), (330, 390)), (("NYC", "CHI"), (150, 180)),
   (("LAX", "CHI"), (240, 280)), (("NYC", "MIA"), (180, 220)),
   (("LAX", "SEA"), (150, 180))]

/-- Python dict membership / indexing on the route table. -/
def lookupRoute : List ((String × String) × (ℤ × ℤ)) → String × String →
    Option (ℤ × ℤ)
  | [], _ => none
  | p :: rest, key => if p.1 = key then some p.2 else lookupRoute rest key

/-- Python `str.upper()` (the ASCII mapping suffices for the airport
codes the table holds). -/
def pyUpper (s : String) : String := ⟨s.data.map Char.toUpper⟩

/-- Lines 72-81 of demo_scraper.py: look the uppercased pair up in the
table, then its reverse; `none` means both lookups missed and the
default range `(120, 480)` applies. -/
def routeLookup (source destination : String) : Option (ℤ × ℤ) :=
  match lookupRoute flight_durations (pyUpper source, pyUpper destination) with
  | some r => some r
  | none => lookupRoute flight_durations (pyUpper destination, pyUpper source)

/-- `f"{n:02d}"` for the hour/minute fields. -/
def pad2 (n : Nat) : String := if n < 10 then "0" ++ toString n else toString n

/-- `DemoFlightScraper._generate_flight` (demo_scraper.py lines 59-127).
Draw order follows the source: airline choice, base price, price jitter,
duration, departure hour, departure minute, stops choice, then one more
draw when the stop count adjusts the price.  The `datetime.strptime` on
`travel_date` (which succeeds on any contract-valid `YYYY-MM-DD` date)
is used only to detect day rollover; the arrival clock time and the
`" +1"` marker depend only on the departure time-of-day plus the
duration, which is how they are computed here. -/
def generate_flight (source destination travel_date : String)
    (g0 : RandGen) : FlightRecord × RandGen :=
  let airline := (airlines.getD (g0.head % airlines.length) default).1
  let price_range := (airlines.getD (g0.head % airlines.length) default).2
  let g1 := g0.next
  let bp := randint price_range.1 price_range.2 g1
  let jit := randint (-50) 100 bp.2
  let price_numeric := bp.1 + jit.1
  let g3 := jit.2
  let duration_range := (routeLookup source destination).getD (120, 480)
  let dm := randint duration_range.1 duration_range.2 g3
  let duration_minutes := dm.1
  let g4 := dm.2
  let hours := duration_minutes / 60
  let minutes := duration_minutes % 60
  let duration := toString hours ++ "h " ++ toString minutes ++ "m"
  let dh := randint 6 22 g4
  let departure_hour := dh.1
  let g5 := dh.2
  let departure_minute := [0, 15, 30, 45].getD (g5.head % 4) 0
  let g6 := g5.next
  let departure_time := pad2 departure_hour.toNat ++ ":" ++ pad2 departure_minute
  let totalM := departure_hour * 60 + (departure_minute : ℤ) + duration_minutes
  let arrival_base := pad2 ((totalM / 60 % 24).toNat) ++ ":" ++ pad2 ((totalM % 60).toNat)
  let arrival_time := if 1440 ≤ totalM then arrival_base ++ " +1" else arrival_base
  let stops := ["Nonstop", "1 stop", "2 stops"].getD (g6.head % 3) "Nonstop"
  let g7 := g6.next
  let adj :=
    if stops = "Nonstop" then
      let a := randint 50 150 g7; (price_numeric + a.1, a.2)
    else if stops = "2 stops" then
      let a := randint 30 100 g7; (price_numeric - a.1, a.2)
    else (price_numeric, g7)
  let price := "$" ++ toString adj.1
  ({ airline := some airline,
     departure_time := some departure_time,
     arrival_time := some arrival_time,
     duration := some duration,
     duration_minutes := some ((duration_minutes : ℤ) : WithTop ℤ),
     price := some price,
     price_numeric := some ((adj.1 : ℤ) : WithTop ℤ),
     stops := some stops,
     departure_airport := some (pyUpper source),
     arrival_airport := some (pyUpper destination),
     website := some "Demo Data" }, adj.2)

/-- The generation loop `for i in range(num_flights)` of
`DemoFlightScraper.search_flights`, threading the random stream. -/
def genFlights (source destination travel_date : String) :
    Nat → RandGen → List FlightRecord × RandGen
  | 0, g => ([], g)
  | n + 1, g =>
    let fg := generate_flight source destination travel_date g
    let rest := genFlights source destination travel_date n fg.2
    (fg.1 :: rest.1, rest.2)

/-- `DemoFlightScraper.search_flights` (demo_scraper.py lines 40-57):
`num_flights = min(config['search_settings']['max_results'], 8)` records
are generated (the `max_results` key is read directly, so it is passed
here as a plain `Nat`), then sorted in place by
`lambda x: x['price_numeric']` (a key every generated record carries).
The unused parameters `return_date`, `passengers` and `flight_class` are
kept to mirror the source signature. -/
def search_flights (max_results : Nat) (source destination travel_date : String)
    (return_date : Option String) (passengers : Nat) (flight_class : String)
    (g : RandGen) : List FlightRecord × RandGen :=
  let num_flights := min max_results 8
  let fl := genFlights source destination travel_date num_flights g
  (sortByKey priceKey fl.1, fl.2)

end DemoFlightScraper

namespace FlightScannerAgent

/-- Sources that return empty or raise are skipped by the loop. -/
theorem firstSuccess_append (pre rest : List (Option (List FlightRecord)))
    (h : ∀ o ∈ pre, o = none ∨ o = some []) :
    firstSuccess (pre ++ rest) = firstSuccess rest := by
  induction pre with
  | nil => rfl
  | cons o pre ih =>
    rcases h o (by simp) with ho | ho <;> subst ho <;>
      simp [firstSuccess, ih fun o ho => h o (by simp [ho])]

end FlightScannerAgent

/-- C1: the aggregator tries the configured sources strictly in order.
If everything before source `k` was empty (adapter exception `none` or
empty list) and source `k` returns a non-empty list `l`, then `l` is the
accepted result set and the later sources are never consulted (the
result does not depend on them); if every source yields empty, the
terminal result is the empty list. -/
theorem aggregator_first_success_wins (sort_by : Option String)
    (max_results : Option Nat)
    (pre post post' : List (Option (List FlightRecord)))
    (l : List FlightRecord)
    (hpre : ∀ o ∈ pre, o = none ∨ o = some []) :
    (l ≠ [] →
      FlightScannerAgent.firstSuccess (pre ++ some l :: post) = l ∧
      FlightScannerAgent.search_flights sort_by max_results
          (pre ++ some l :: post) =
        FlightScannerAgent.search_flights sort_by max_results
          (pre ++ some l :: post')) ∧
    FlightScannerAgent.search_flights sort_by max_results pre = [] := by
  constructor
  · intro hl
    have h1 : ∀ post'' : List (Option (List FlightRecord)),
        FlightScannerAgent.firstSuccess (pre ++ some l :: post'') = l := by
      intro post''
      rw [FlightScannerAgent.firstSuccess_append pre _ hpre]
      cases l with
      | nil => exact absurd rfl hl
      | cons a as => simp [FlightScannerAgent.firstSuccess]
    refine ⟨h1 post, ?_⟩
    unfold FlightScannerAgent.search_flights
    rw [h1 post, h1 post']
  · unfold FlightScannerAgent.search_flights
    have h0 : FlightScannerAgent.firstSuccess pre = [] := by
      have := FlightScannerAgent.firstSuccess_append pre [] hpre
      simpa using this
    simp [h0]

/-- Concrete run of C1: with a raising primary and an empty first
fallback, the second fallback's single record is the result, whatever a
later source would have produced. -/
theorem aggregator_first_success_wins_witness :
    FlightScannerAgent.firstSuccess
        [none, some [], some [{ price_numeric := some 5 }],
          some [{ price_numeric := some 3 }]] =
      [{ price_numeric := some 5 }] ∧
    FlightScannerAgent.search_flights none none
        [none, some [], some [{ price_numeric := some 5 }],
          some [{ price_numeric := some 3 }]] =
      FlightScannerAgent.search_flights none none
        [none, some [], some [{ price_numeric := some 5 }]] := by
  have h := aggregator_first_success_wins none none [none, some []]
    [some [{ price_numeric := some 3 }]] []
    [{ price_numeric := some 5 }] (by decide)
  exact h.1 (by decide)

/-- C5: the aggregator's result never exceeds
`search_settings.get('max_results', 10)` records, whatever the sources
produced; and when a source was accepted, the result is exactly the
sorted accepted list truncated once at the end. -/
theorem aggregator_result_bounded (sort_by : Option String)
    (max_results : Option Nat)
    (outcomes : List (Option (List FlightRecord))) :
    (FlightScannerAgent.search_flights sort_by max_results outcomes).length
      ≤ max_results.getD 10 ∧
    (FlightScannerAgent.firstSuccess outcomes ≠ [] →
      FlightScannerAgent.search_flights sort_by max_results outcomes =
        (FlightScannerAgent.sortRecords (sort_by.getD "price")
            (FlightScannerAgent.firstSuccess outcomes)).take
          (max_results.getD 10)) := by
  unfold FlightScannerAgent.search_flights
  by_cases h : FlightScannerAgent.firstSuccess outcomes = []
  · exact ⟨by simp [h], fun hne => absurd h hne⟩
  · exact ⟨by simp only [if_neg h]; simpa using List.length_take_le _ _,
      fun _ => by simp [h]⟩

/-- Concrete run of C5: twelve records from the only source, default cap
10, default price sort. -/
theorem aggregator_result_bounded_witness :
    (FlightScannerAgent.search_flights none none
        [some (List.replicate 12 ({ } : FlightRecord))]).length ≤ 10 ∧
    FlightScannerAgent.search_flights none none
        [some (List.replicate 12 ({ } : FlightRecord))] =
      (FlightScannerAgent.sortRecords "price"
          (FlightScannerAgent.firstSuccess
            [some (List.replicate 12 ({ } : FlightRecord))])).take 10 := by
  have h := aggregator_result_bounded none none
    [some (List.replicate 12 ({ } : FlightRecord))]
  exact ⟨h.1, h.2 (by decide)⟩

/-- C9: any `sort_by` value other than `price`, `duration` and
`departure_time` falls through the `if/elif` chain, so the accepted
source's records are returned in adapter order, only truncated. -/
theorem aggregator_unknown_sort_key (v : String) (max_results : Option Nat)
    (outcomes : List (Option (List FlightRecord)))
    (hv : v ∉ ["price", "duration", "departure_time"]) :
    FlightScannerAgent.search_flights (some v) max_results outcomes =
      (FlightScannerAgent.firstSuccess outcomes).take
        (max_results.getD 10) := by
  have hv3 : v ≠ "price" ∧ v ≠ "duration" ∧ v ≠ "departure_time" := by
    simpa [not_or] using hv
  unfold FlightScannerAgent.search_flights
  by_cases h : FlightScannerAgent.firstSuccess outcomes = []
  · simp [h]
  · simp [h, FlightScannerAgent.sortRecords, hv3.1, hv3.2.1, hv3.2.2]

/-- Concrete run of C9: `sort_by = "airline"` leaves the adapter's order
(price 5 before price 3) untouched. -/
theorem aggregator_unknown_sort_key_witness :
    FlightScannerAgent.search_flights (some "airline") none
        [some [{ price_numeric := some 5 }, { price_numeric := some 3 }]] =
      [{ price_numeric := some 5 }, { price_numeric := some 3 }] := by
  have h := aggregator_unknown_sort_key "airline" none
    [some [{ price_numeric := some 5 }, { price_numeric := some 3 }]]
    (by decide)
  simpa using h

/-- C10: `DemoFlightScraper.search_flights` never reads `return_date`,
`passengers` or `flight_class`: two calls with the same random stream,
configured maximum, source, destination and travel date return identical
record lists (and leave the stream in the same state) whatever those
three arguments were. -/
theorem demo_search_ignores_unused_args (max_results : Nat)
    (source destination travel_date : String)
    (rd rd' : Option String) (p p' : Nat) (fc fc' : String) (g : RandGen) :
    DemoFlightScraper.search_flights max_results source destination
        travel_date rd p fc g =
      DemoFlightScraper.search_flights max_results source destination
        travel_date rd' p' fc' g := rfl

/-- C2: `_parse_price` is total.  On empty input it returns
`("N/A", +∞)`.  On non-empty input the display is the stripped original
text, the numeric part is the first digit run of the comma-stripped text
as a number when one exists and `+∞` when the text has no digits; in
particular `"$1,234 round trip"` yields `1234`. -/
theorem parse_price_spec (s : String) :
    BaseFlightScraper.parse_price "" = ("N/A", ⊤)
    ∧ (s ≠ "" →
        (BaseFlightScraper.parse_price s).1 = pyStrip s
        ∧ (∀ n, firstDigitRun (removeCommas s.data) = some n →
            (BaseFlightScraper.parse_price s).2 = ((n : ℤ) : WithTop ℤ))
        ∧ (firstDigitRun (removeCommas s.data) = none →
            (BaseFlightScraper.parse_price s).2 = ⊤))
    ∧ BaseFlightScraper.parse_price "$1,234 round trip"
        = ("$1,234 round trip", ((1234 : ℤ) : WithTop ℤ)) := by
  refine ⟨by decide, fun hne => ?_, by decide⟩
  have hd : s.data.isEmpty = false := by
    obtain ⟨l⟩ := s
    cases l with
    | nil => exact absurd rfl hne
    | cons c cs => rfl
  unfold BaseFlightScraper.parse_price
  rw [hd]
  cases h : firstDigitRun (removeCommas s.data) with
  | none => exact ⟨rfl, fun n hn => Option.noConfusion hn, fun _ => rfl⟩
  | some m =>
    exact ⟨rfl, fun n hn => by cases hn; rfl, fun hn => Option.noConfusion hn⟩

/-- Concrete run of C2 on a digit-free non-empty input. -/
theorem parse_price_spec_witness :
    (BaseFlightScraper.parse_price "free!").1 = pyStrip "free!"
    ∧ (BaseFlightScraper.parse_price "free!").2 = ⊤ := by
  have h := (parse_price_spec "free!").2.1 (by decide)
  exact ⟨h.1, h.2.2 (by decide)⟩

/-- C3: `_parse_duration` is total.  On empty input it returns
`("N/A", +∞)`.  On non-empty input the display is the stripped original
text and the minute count is `60` times the first `<N>h` number plus the
first `<N>m` number, an absent component counting as `0`, with a zero
total (in particular: neither pattern present) degrading to `+∞`; in
particular `"3h"` parses to `180`, `"45m"` to `45`, and `"garbled"` to
the sentinel. -/
theorem parse_duration_spec (s : String) :
    BaseFlightScraper.parse_duration "" = ("N/A", ⊤)
    ∧ (s ≠ "" →
        (BaseFlightScraper.parse_duration s).1 = pyStrip s
        ∧ (BaseFlightScraper.parse_duration s).2 =
            (if 0 < 60 * (firstNumBefore 'h' s.data).getD 0
                  + (firstNumBefore 'm' s.data).getD 0
             then (((60 * (firstNumBefore 'h' s.data).getD 0
                  + (firstNumBefore 'm' s.data).getD 0 : ℕ) : ℤ) : WithTop ℤ)
             else ⊤))
    ∧ BaseFlightScraper.parse_duration "3h" = ("3h", ((180 : ℤ) : WithTop ℤ))
    ∧ BaseFlightScraper.parse_duration "45m" = ("45m", ((45 : ℤ) : WithTop ℤ))
    ∧ (BaseFlightScraper.parse_duration "garbled").2 = ⊤ := by
  refine ⟨by decide, fun hne => ?_, by decide, by decide, by decide⟩
  have hd : s.data.isEmpty = false := by
    obtain ⟨l⟩ := s
    cases l with
    | nil => exact absurd rfl hne
    | cons c cs => rfl
  unfold BaseFlightScraper.parse_duration
  rw [hd]
  exact ⟨rfl, rfl⟩

/-- Concrete run of C3 on a combined hours-and-minutes input. -/
theorem parse_duration_spec_witness :
    (BaseFlightScraper.parse_duration "2h 15m").1 = pyStrip "2h 15m"
    ∧ (BaseFlightScraper.parse_duration "2h 15m").2
        = ((135 : ℤ) : WithTop ℤ) := by
  have h := (parse_duration_spec "2h 15m").2.1 (by decide)
  exact ⟨h.1, by rw [h.2]; decide⟩

/-- Inserting into a list commutes with filtering by an exact key value:
the skipped prefix consists of records with strictly smaller keys, which
cannot share the inserted record's key. -/
theorem filter_orderedInsert {β : Type} [LinearOrder β] [DecidableEq β]
    (key : FlightRecord → β) (v : β) (x : FlightRecord)
    (l : List FlightRecord) :
    (List.orderedInsert (fun a b => key a ≤ key b) x l).filter
        (fun r => decide (key r = v)) =
      if key x = v then
        x :: l.filter (fun r => decide (key r = v))
      else l.filter (fun r => decide (key r = v)) := by
  induction l with
  | nil => by_cases hxv : key x = v <;> simp [List.orderedInsert, hxv]
  | cons b l ih =>
    rw [List.orderedInsert]
    by_cases hxb : key x ≤ key b
    · rw [if_pos hxb]
      by_cases hxv : key x = v <;> by_cases hbv : key b = v <;>
        simp [List.filter_cons, hxv, hbv]
    · rw [if_neg hxb]
      have hbx : key b < key x := not_le.mp hxb
      by_cases hxv : key x = v
      · have hbv : key b ≠ v := hxv ▸ ne_of_lt hbx
        simp [List.filter_cons, hxv, hbv, ih]
      · by_cases hbv : key b = v <;> simp [List.filter_cons, hxv, hbv, ih]

/-- Stability of the key-based insertion sort: the records carrying any
fixed key value come out in exactly their input order. -/
theorem filter_sortByKey {β : Type} [LinearOrder β] [DecidableEq β]
    (key : FlightRecord → β) (v : β) (l : List FlightRecord) :
    (sortByKey key l).filter (fun r => decide (key r = v)) =
      l.filter (fun r => decide (key r = v)) := by
  induction l with
  | nil => rfl
  | cons x l ih =>
    rw [sortByKey, List.insertionSort,
      filter_orderedInsert key v x (List.insertionSort _ l)]
    rw [sortByKey] at ih
    by_cases hxv : key x = v <;> simp [hxv, ih, List.filter_cons]

/-- The key-based insertion sort orders the records by their keys. -/
theorem sorted_sortByKey {β : Type} [LinearOrder β]
    (key : FlightRecord → β) (l : List FlightRecord) :
    (sortByKey key l).Sorted (fun a b => key a ≤ key b) := by
  haveI : IsTotal FlightRecord (fun a b => key a ≤ key b) :=
    ⟨fun a b => le_total (key a) (key b)⟩
  haveI : IsTrans FlightRecord (fun a b => key a ≤ key b) :=
    ⟨fun a b c hab hbc => le_trans hab hbc⟩
  exact List.sorted_insertionSort _ l

/-- In a key-sorted list, a record whose key is the `+∞` sentinel is
never followed by a finite-key record. -/
theorem top_last_sortByKey (key : FlightRecord → WithTop ℤ)
    (l : List FlightRecord) :
    (sortByKey key l).Pairwise (fun a b => key a = ⊤ → key b = ⊤) :=
  (sorted_sortByKey key l).imp (fun hab ha => top_le_iff.mp (ha ▸ hab))

/-- The key-based insertion sort permutes its input. -/
theorem perm_sortByKey {β : Type} [LinearOrder β]
    (key : FlightRecord → β) (l : List FlightRecord) :
    (sortByKey key l).Perm l :=
  List.perm_insertionSort _ l

/-- `sort_by == 'price'` takes the first branch. -/
theorem sortRecords_price (l : List FlightRecord) :
    FlightScannerAgent.sortRecords "price" l = sortByKey priceKey l := rfl

/-- `sort_by == 'duration'` takes the second branch. -/
theorem sortRecords_duration (l : List FlightRecord) :
    FlightScannerAgent.sortRecords "duration" l = sortByKey durKey l := rfl

/-- `sort_by == 'departure_time'` takes the third branch. -/
theorem sortRecords_departure (l : List FlightRecord) :
    FlightScannerAgent.sortRecords "departure_time" l
      = sortByKey depKey l := rfl

/-- C4: on every record list (all records carry `WithTop ℤ` numeric
fields, a missing key counting as the sentinel via
`.get(..., float('inf'))`), the aggregator's sort under each configured
key is total (it returns a permutation, never an exception), stable
(records with equal sort keys keep their input order — witnessed by the
filter by any fixed key value being preserved), and under the two
numeric keys every sentinel-valued record ends up after every
finite-valued one. -/
theorem aggregator_sort_stable (l : List FlightRecord) (v : WithTop ℤ)
    (t : String) :
    ((FlightScannerAgent.sortRecords "price" l).Perm l
      ∧ (FlightScannerAgent.sortRecords "price" l).filter
            (fun r => decide (priceKey r = v)) =
          l.filter (fun r => decide (priceKey r = v))
      ∧ (FlightScannerAgent.sortRecords "price" l).Pairwise
          (fun a b => priceKey a = ⊤ → priceKey b = ⊤))
    ∧ ((FlightScannerAgent.sortRecords "duration" l).Perm l
      ∧ (FlightScannerAgent.sortRecords "duration" l).filter
            (fun r => decide (durKey r = v)) =
          l.filter (fun r => decide (durKey r = v))
      ∧ (FlightScannerAgent.sortRecords "duration" l).Pairwise
          (fun a b => durKey a = ⊤ → durKey b = ⊤))
    ∧ ((FlightScannerAgent.sortRecords "departure_time" l).Perm l
      ∧ (FlightScannerAgent.sortRecords "departure_time" l).filter
            (fun r => decide (depKey r = t)) =
          l.filter (fun r => decide (depKey r = t))) := by
  rw [sortRecords_price, sortRecords_duration, sortRecords_departure]
  exact ⟨⟨perm_sortByKey _ _, filter_sortByKey _ _ _, top_last_sortByKey _ _⟩,
    ⟨perm_sortByKey _ _, filter_sortByKey _ _ _, top_last_sortByKey _ _⟩,
    ⟨perm_sortByKey _ _, filter_sortByKey _ _ _⟩⟩

/-- `random.randint(lo, hi)` with `lo ≤ hi` lands in `[lo, hi]`. -/
theorem randint_mem (lo hi : ℤ) (h : lo ≤ hi) (g : RandGen) :
    lo ≤ (randint lo hi g).1 ∧ (randint lo hi g).1 ≤ hi := by
  unfold randint
  have hpos : (0 : ℤ) < hi - lo + 1 := by omega
  have h1 : 0 ≤ (g.head : ℤ) % (hi - lo + 1) :=
    Int.emod_nonneg _ (by omega)
  have h2 : (g.head : ℤ) % (hi - lo + 1) < hi - lo + 1 :=
    Int.emod_lt_of_pos _ hpos
  constructor <;> simp only [] <;> omega

/-- A successful dict lookup returns an entry of the table. -/
theorem lookupRoute_mem :
    ∀ (tbl : List ((String × String) × (ℤ × ℤ))) (k : String × String)
      (v : ℤ × ℤ), DemoFlightScraper.lookupRoute tbl k = some v →
      ∃ kk, (kk, v) ∈ tbl := by
  intro tbl
  induction tbl with
  | nil => intro k v h; exact Option.noConfusion h
  | cons p rest ih =>
    intro k v h
    rw [DemoFlightScraper.lookupRoute] at h
    by_cases hk : p.1 = k
    · rw [if_pos hk] at h
      injection h with h
      exact ⟨p.1, by simp [← h]⟩
    · rw [if_neg hk] at h
      obtain ⟨kk, hm⟩ := ih k v h
      exact ⟨kk, List.mem_cons_of_mem _ hm⟩

/-- Every duration range in the fixed route table is well-formed. -/
theorem flight_durations_ranges (k : String × String) (v : ℤ × ℤ)
    (h : (k, v) ∈ DemoFlightScraper.flight_durations) : v.1 ≤ v.2 := by
  simp [DemoFlightScraper.flight_durations, Prod.ext_iff] at h
  rcases h with ⟨-, h1, h2⟩ | ⟨-, h1, h2⟩ | ⟨-, h1, h2⟩ | ⟨-, h1, h2⟩ |
    ⟨-, h1, h2⟩ <;> rw [h1, h2] <;> norm_num

/-- A resolved route range (direct or reversed) is an entry of the
table. -/
theorem routeLookup_mem (source destination : String) (v : ℤ × ℤ)
    (h : DemoFlightScraper.routeLookup source destination = some v) :
    ∃ kk, (kk, v) ∈ DemoFlightScraper.flight_durations := by
  unfold DemoFlightScraper.routeLookup at h
  cases h1 : DemoFlightScraper.lookupRoute DemoFlightScraper.flight_durations
      (DemoFlightScraper.pyUpper source, DemoFlightScraper.pyUpper destination) with
  | some r =>
    rw [h1] at h
    injection h with h
    exact lookupRoute_mem _ _ _ (h ▸ h1)
  | none =>
    rw [h1] at h
    exact lookupRoute_mem _ _ _ h

/-- C7: every record the demo generator produces has its
`duration_minutes` drawn from the resolved route range: the table's
range when the uppercased route pair (or its reverse) is listed —
`[330, 390]` for the NYC/LAX pair in particular — and the default
`[120, 480]` when both lookups miss. -/
theorem demo_duration_in_range (source destination travel_date : String)
    (g : RandGen) :
    ∃ m : ℤ,
      (DemoFlightScraper.generate_flight source destination travel_date
          g).1.duration_minutes = some ((m : ℤ) : WithTop ℤ)
      ∧ (∀ lo hi,
          DemoFlightScraper.routeLookup source destination = some (lo, hi) →
          lo ≤ m ∧ m ≤ hi)
      ∧ (DemoFlightScraper.routeLookup source destination = none →
          120 ≤ m ∧ m ≤ 480)
      ∧ DemoFlightScraper.routeLookup "NYC" "LAX" = some (330, 390) := by
  refine ⟨(randint
      ((DemoFlightScraper.routeLookup source destination).getD (120, 480)).1
      ((DemoFlightScraper.routeLookup source destination).getD (120, 480)).2
      g.next.next.next).1, rfl, ?_, ?_, by decide⟩
  · intro lo hi h
    rw [h]
    have hr : lo ≤ hi := by
      obtain ⟨kk, hm⟩ := routeLookup_mem source destination (lo, hi) h
      exact flight_durations_ranges kk (lo, hi) hm
    simpa using randint_mem lo hi hr g.next.next.next
  · intro h
    rw [h]
    simpa using randint_mem 120 480 (by norm_num) g.next.next.next

/-- Concrete run of C7 on the NYC→LAX route with the all-zero stream. -/
theorem demo_duration_in_range_witness :
    ∃ m : ℤ,
      (DemoFlightScraper.generate_flight "NYC" "LAX" "2025-06-01"
          (fun _ => 0)).1.duration_minutes = some ((m : ℤ) : WithTop ℤ)
      ∧ 330 ≤ m ∧ m ≤ 390 := by
  obtain ⟨m, hm, h1, h2, h3⟩ :=
    demo_duration_in_range "NYC" "LAX" "2025-06-01" (fun _ => 0)
  exact ⟨m, hm, h1 330 390 h3⟩

/-- The demo generation loop produces exactly the requested number of
records. -/
theorem genFlights_length (source destination travel_date : String) :
    ∀ (n : Nat) (g : RandGen),
      (DemoFlightScraper.genFlights source destination travel_date n g).1.length
        = n := by
  intro n
  induction n with
  | zero => intro g; rfl
  | succ n ih =>
    intro g
    rw [DemoFlightScraper.genFlights]
    simp [ih]

/-- C6: for every query, configuration and random stream, the demo
scraper returns at most `min(max_results, 8)` records (in fact exactly
that many), sorted ascending by numeric price. -/
theorem demo_search_bounded_sorted (max_results : Nat)
    (source destination travel_date : String) (rd : Option String)
    (p : Nat) (fc : String) (g : RandGen) :
    (DemoFlightScraper.search_flights max_results source destination
        travel_date rd p fc g).1.length ≤ min max_results 8
    ∧ (DemoFlightScraper.search_flights max_results source destination
        travel_date rd p fc g).1.Sorted
        (fun a b => priceKey a ≤ priceKey b) := by
  constructor
  · show (sortByKey priceKey
        (DemoFlightScraper.genFlights source destination travel_date
          (min max_results 8) g).1).length ≤ min max_results 8
    rw [(perm_sortByKey priceKey _).length_eq,
      genFlights_length source destination travel_date (min max_results 8) g]
  · exact sorted_sortByKey priceKey _

/-- A validated configuration satisfies none of the fatal conditions. -/
theorem validate_config_ok (c : Config) (u : Unit)
    (h : validate_config c = Except.ok u) :
    ¬ missingRequiredField c ∧ ¬ malformedDate c ∧ ¬ unsupportedPrimary c := by
  unfold validate_config at h
  by_cases h1 : c.flight_search = none
  · rw [if_pos h1] at h; exact Except.noConfusion h
  rw [if_neg h1] at h
  by_cases h2 : c.websites = none
  · rw [if_pos h2] at h; exact Except.noConfusion h
  rw [if_neg h2] at h
  by_cases h3 : c.search_settings = none
  · rw [if_pos h3] at h; exact Except.noConfusion h
  rw [if_neg h3] at h
  by_cases h4 : c.browser_settings = none
  · rw [if_pos h4] at h; exact Except.noConfusion h
  rw [if_neg h4] at h
  by_cases h5 : blankStr (c.flight_search.getD default).source
  · rw [if_pos h5] at h; exact Except.noConfusion h
  rw [if_neg h5] at h
  by_cases h6 : blankStr (c.flight_search.getD default).destination
  · rw [if_pos h6] at h; exact Except.noConfusion h
  rw [if_neg h6] at h
  by_cases h7 : blankStr (c.flight_search.getD default).travel_date
  · rw [if_pos h7] at h; exact Except.noConfusion h
  rw [if_neg h7] at h
  by_cases h8 :
      validDate ((c.flight_search.getD default).travel_date.getD "") = false
  · rw [if_pos h8] at h; exact Except.noConfusion h
  rw [if_neg h8] at h
  by_cases h9 : (c.flight_search.getD default).return_date.getD "" ≠ ""
      ∧ validDate ((c.flight_search.getD default).return_date.getD "") = false
  · rw [if_pos h9] at h; exact Except.noConfusion h
  rw [if_neg h9] at h
  by_cases h10 : (c.websites.getD default).primary = none
  · rw [if_pos h10] at h; exact Except.noConfusion h
  rw [if_neg h10] at h
  by_cases h11 :
      ((c.websites.getD default).primary.getD "") ∉ supported_websites
  · rw [if_pos h11] at h; exact Except.noConfusion h
  rw [if_neg h11] at h
  obtain ⟨fs, hfs⟩ : ∃ fs, c.flight_search = some fs := by
    cases hc : c.flight_search with
    | none => exact absurd hc h1
    | some fs => exact ⟨fs, rfl⟩
  obtain ⟨w, hw⟩ : ∃ w, c.websites = some w := by
    cases hc : c.websites with
    | none => exact absurd hc h2
    | some w => exact ⟨w, rfl⟩
  rw [hfs] at h5 h6 h7 h8 h9
  rw [hw] at h10 h11
  simp only [Option.getD_some] at h5 h6 h7 h8 h9 h10 h11
  refine ⟨?_, ?_, ?_⟩
  · rintro (hb | hb | hb | hb | ⟨fs', hfs', hb⟩ | ⟨w', hw', hb⟩)
    · exact h1 hb
    · exact h2 hb
    · exact h3 hb
    · exact h4 hb
    · rw [hfs] at hfs'
      injection hfs' with hfs'
      subst hfs'
      rcases hb with hb | hb | hb
      · exact h5 hb
      · exact h6 hb
      · exact h7 hb
    · rw [hw] at hw'
      injection hw' with hw'
      subst hw'
      exact h10 hb
  · rintro ⟨fs', hfs', hb⟩
    rw [hfs] at hfs'
    injection hfs' with hfs'
    subst hfs'
    rcases hb with ⟨t, ht, hbad⟩ | ⟨r, hr, hrne, hbad⟩
    · rw [ht] at h8
      simp only [Option.getD_some] at h8
      rw [Bool.not_eq_false] at h8
      rw [h8] at hbad
      exact Bool.noConfusion hbad
    · rw [hr] at h9
      simp only [Option.getD_some] at h9
      rcases not_and_or.mp h9 with h9 | h9
      · exact h9 hrne
      · rw [Bool.not_eq_false] at h9
        rw [h9] at hbad
        exact Bool.noConfusion hbad
  · rintro ⟨w', hw', p, hp, hbad⟩
    rw [hw] at hw'
    injection hw' with hw'
    subst hw'
    rw [hp] at h11
    simp only [Option.getD_some, not_not] at h11
    exact hbad h11

/-- C8: a configuration that is missing a required field, carries a
travel or return date the `%Y-%m-%d` parser rejects, or names an
unsupported primary website makes agent construction fail with an error
before any search: the pipeline result is an error and is entirely
independent of whatever the source adapters would have returned, so no
adapter is ever consulted for such a configuration. -/
theorem config_errors_fatal (c : Config)
    (outcomes outcomes' : List (Option (List FlightRecord)))
    (h : missingRequiredField c ∨ malformedDate c ∨ unsupportedPrimary c) :
    (∃ e, runPipeline c outcomes = Except.error e)
    ∧ runPipeline c outcomes = runPipeline c outcomes' := by
  cases hv : validate_config c with
  | error e =>
    have hr : ∀ o, runPipeline c o = Except.error e := by
      intro o
      unfold runPipeline mkAgent
      rw [hv]
    exact ⟨⟨e, hr outcomes⟩, (hr outcomes).trans (hr outcomes').symm⟩
  | ok u =>
    obtain ⟨hm, hd, hp⟩ := validate_config_ok c u hv
    rcases h with h | h | h
    · exact absurd h hm
    · exact absurd h hd
    · exact absurd h hp

/-- Concrete run of C8: the empty configuration (every section missing)
fails construction, and the failure does not depend on what a source
would have returned. -/
theorem config_errors_fatal_witness :
    (∃ e, runPipeline { } [] = Except.error e)
    ∧ runPipeline { } [] =
        runPipeline { } [some [{ price_numeric := some 1 }]] :=
  config_errors_fatal { } [] [some [{ price_numeric := some 1 }]]
    (Or.inl (Or.inl rfl))
